import Mathlib

/-!
Verification of the WuKongIM cluster server core against its specification.

The development shallowly embeds the Go sources
`pkg/cluster/clusterserver/server.go` and `pkg/cluster/replica/options.go`.
Go maps that may be `nil` are embedded as `Option` of an association list
(`none` is the nil map), Go `time.Duration` values as natural numbers of
nanoseconds, and fallible or panicking Go code as `Except`-valued functions.
Side effects (metric increments, log lines, network sends, goroutine
submissions) are reified as explicit effect lists so theorems can speak
about what a call does and does not do.
-/

/-! ### Go time constants (nanoseconds, as in Go's `time` package) -/

def goMillisecond : Nat := 1000000

def goSecond : Nat := 1000000000

/-! ### replica/options.go -/

/-- Element type of `LastSyncInfoMap`. The `SyncInfo` struct is declared
outside the sources under verification; the claims only depend on whether the
map itself is nil or empty, never on its elements, so the element type is left
as a field-free structure. -/
structure SyncInfo where

deriving DecidableEq

/-- Embedding of `replica.Options` (replica/options.go lines 5-20).
`lastSyncInfoMap` is `Option` of an association list: `none` models a Go nil
map, `some []` a non-nil empty map. Function-typed and interface-typed fields
(`Transport`, `OnApply`, `OnCommit`, `Storage`) carry no data relevant to the
claims and are omitted. -/
structure ReplicaOptions where
  nodeID : Nat
  shardNo : String
  replicas : List Nat
  syncLimit : Nat
  checkInterval : Nat
  appliedIndex : Nat
  commitLimit : Nat
  lastSyncInfoMap : Option (List (Nat × SyncInfo))
  currentTerm : Nat
  proposeTimeout : Nat
deriving DecidableEq

/-- Embedding of `replica.NewOptions` (replica/options.go lines 22-31): a
struct literal setting six fields; the remaining fields take Go zero values
(0, "", nil slice). -/
def replicaNewOptions : ReplicaOptions :=
  { nodeID := 0
    shardNo := ""
    replicas := []
    syncLimit := 20
    checkInterval := 500 * goMillisecond
    appliedIndex := 0
    commitLimit := 20
    lastSyncInfoMap := some []
    currentTerm := 1
    proposeTimeout := 5 * goSecond }

/-! ### Go string helpers used by the cluster server -/

/-- Whitespace predicate matching Go's `unicode.IsSpace` on the ASCII
characters that occur in addresses and seeds. -/
def isSpaceChar (c : Char) : Bool :=
  c == ' ' || c == '\t' || c == '\n' || c == '\r'

/-- `strings.TrimSpace(s) != ""`, i.e. the string has a non-space character.
The cluster server only ever compares trimmed strings against the empty
string, so the trimmed string itself is never needed. -/
def seedConfigured (s : String) : Bool :=
  s.data.any (fun c => !(isSpaceChar c))

/-- Split a character list at every occurrence of `sep`, like Go's
`strings.Split` (which never returns an empty slice). -/
def splitChars (sep : Char) : List Char → List (List Char)
  | [] => [[]]
  | c :: rest =>
      let r := splitChars sep rest
      if c == sep then [] :: r
      else
        match r with
        | h :: t => (c :: h) :: t
        | [] => [[c]]

/-- Base-10 unsigned parse of a character list, like Go's
`strconv.ParseUint(s, 10, 64)`: rejects the empty string and any non-digit;
values ≥ 2^64 are out of range. -/
def parseUint64 (cs : List Char) : Option Nat :=
  match cs with
  | [] => none
  | _ =>
    let n? := cs.foldl
      (fun acc c =>
        match acc with
        | none => none
        | some n => if c.isDigit then some (n * 10 + (c.toNat - 48)) else none)
      (some 0)
    match n? with
    | none => none
    | some n => if n < 2 ^ 64 then some n else none

/-- Embedding of `seedNode` (server.go lines 487-499): split the seed on `@`;
fewer than two parts is a format error; the first part must parse as a
uint64 node id; the second part is the seed address. -/
def seedNode (seed : String) : Except String (Nat × String) :=
  match splitChars '@' seed.data with
  | a :: b :: _ =>
      match parseUint64 a with
      | none => Except.error "invalid syntax"
      | some id => Except.ok (id, String.mk b)
  | _ => Except.error "seed format error"

/-- Replace every occurrence of `pat` in the character list by nothing, with
explicit fuel (one unit per character suffices since each step consumes at
least one character when fuel is spent). Mirrors
`strings.ReplaceAll(s, pat, "")`. -/
def stripAllAux (pat : List Char) : Nat → List Char → List Char
  | 0, l => l
  | _ + 1, [] => []
  | fuel + 1, c :: cs =>
      if !pat.isEmpty && pat.isPrefixOf (c :: cs) then
        stripAllAux pat fuel ((c :: cs).drop pat.length)
      else c :: stripAllAux pat fuel cs

/-- `strings.ReplaceAll(s, pat, "")` over strings. -/
def goStripAll (s pat : String) : String :=
  String.mk (stripAllAux pat.data s.data.length s.data)

/-! ### server.go `New`: the InitNodes seeding fragment (lines 88-98) -/

/-- Ways the `New` constructor fragment can panic: a write into a nil Go map,
or `panic(err)` after a malformed seed. -/
inductive NewPanic
  | nilMapAssign
  | seedError (msg : String)
deriving DecidableEq

/-- A Go map value: `none` is a nil map, `some l` a live map embedded as an
association list in insertion order. -/
def GoMap : Type := Option (List (Nat × String))

/-- Set `k` to `v` in an association list, updating in place or appending. -/
def assocSet (l : List (Nat × String)) (k : Nat) (v : String) : List (Nat × String) :=
  if l.any (fun p => p.1 == k) then
    l.map (fun p => if p.1 == k then (k, v) else p)
  else l ++ [(k, v)]

/-- Go map indexed assignment `m[k] = v`: panics on a nil map, otherwise
mutates the map. -/
def goMapAssign (m : GoMap) (k : Nat) (v : String) : Except NewPanic GoMap :=
  match m with
  | none => Except.error NewPanic.nilMapAssign
  | some l => Except.ok (some (assocSet l k v))

/-- Go `len` of a possibly-nil map. -/
def goMapLen (m : GoMap) : Nat :=
  match m with
  | none => 0
  | some l => l.length

/-- Embedding of the `initNodes` fragment of `New` (server.go lines 88-98):
`initNodes := opts.InitNodes; if len(initNodes) == 0 { if TrimSpace(Seed) != ""
{ parse seed, panic on error, initNodes[seedID] = seedAddr };
initNodes[NodeId] = ReplaceAll(Addr, "tcp://", "") }`. The result is the map
`New` passes on to the cluster-event server (which, by Go reference
semantics, is the caller's own map when one was supplied). -/
def newInitNodes (initNodes : GoMap) (seed : String) (nodeId : Nat)
    (addr : String) : Except NewPanic GoMap :=
  if goMapLen initNodes == 0 then
    let step1 : Except NewPanic GoMap :=
      if seedConfigured seed then
        match seedNode seed with
        | Except.error e => Except.error (NewPanic.seedError e)
        | Except.ok (sid, saddr) => goMapAssign initNodes sid saddr
      else Except.ok initNodes
    match step1 with
    | Except.error e => Except.error e
    | Except.ok m1 => goMapAssign m1 nodeId (goStripAll addr "tcp://")
  else Except.ok initNodes

/-! ### server.go `New`: goroutine pool construction (lines 113-128) -/

/-- What a pool's panic handler does when a task panics. Both handlers in
`New` capture `debug.Stack()` and then call the server logger's `Panic`
method, which logs at panic level and re-panics; a panic raised inside an
ants panic handler is not recovered again, so the process dies. -/
structure PanicHandlerEffect where
  logsStack : Bool
  terminatesProcess : Bool
deriving DecidableEq

/-- Modelled from the spec: the `wklog` logger's `Panic` method is not among
the sources under verification; per the spec ("Panic handler captures stack
and panics the process", "`ErrConfig` at startup panics") it logs and then
re-raises the panic, terminating the process. -/
def wklogPanicTerminates : Bool := true

/-- Configuration of an ants goroutine pool as fixed in `New`. -/
structure PoolConfig where
  size : Int
  nonblocking : Bool
  disablePurge : Bool
  panicHandler : PanicHandlerEffect
deriving DecidableEq

/-- Embedding of the channel-election pool construction (server.go lines
113-116): `ants.WithNonblocking(false)`, `ants.WithDisablePurge(true)`, and a
panic handler that captures the stack and calls `s.Panic`. -/
def channelElectionPoolConfig (channelElectionPoolSize : Int) : PoolConfig :=
  { size := channelElectionPoolSize
    nonblocking := false
    disablePurge := true
    panicHandler :=
      { logsStack := true, terminatesProcess := wklogPanicTerminates } }

/-- Embedding of the channel-load pool construction (server.go lines
122-125): `ants.WithNonblocking(true)`, purge left at its default (enabled),
and a panic handler that captures the stack and calls `s.Panic` — the same
fatal logger call as the election pool's handler. -/
def channelLoadPoolConfig (channelLoadPoolSize : Int) : PoolConfig :=
  { size := channelLoadPoolSize
    nonblocking := true
    disablePurge := false
    panicHandler :=
      { logsStack := true, terminatesProcess := wklogPanicTerminates } }

/-! ### server.go `AddChannelMessage` (lines 248-292) -/

/-- The fields of `reactor.Message` the cluster server reads. The reactor
package is an external collaborator; only `HandlerKey`, `From`, `To`,
`MsgType` and the marshalled `Size` flow through the code under
verification. -/
structure ReactorMessage where
  handlerKey : String
  msgFrom : Nat
  msgTo : Nat
  msgType : Nat
  size : Nat
deriving DecidableEq

/-- The mutable server state read and written by `AddChannelMessage`:
the channel manager's live replicas (by handler key), the
`channelLoadMap` of keys marked loading, the messages enqueued to the
channel manager, and the keys whose load task has been submitted to the
channel-load pool but has not yet run to completion. -/
structure ChannelServerState where
  channelReplicas : List String
  channelLoadMap : List String
  enqueued : List ReactorMessage
  pendingLoads : List String
deriving DecidableEq

/-- How one call to `AddChannelMessage` ends. `submitFailed` is the
non-blocking `channelLoadPool.Submit` returning the ants overload error (the
spec's `ErrPoolSaturated`), which the code only logs. -/
inductive AddChannelOutcome
  | enqueuedDirect
  | droppedLoading
  | loadSubmitted
  | submitFailed
deriving DecidableEq

/-- Result of `AddChannelMessage`: the new state, the outcome, and whether
the high-water warning (`running > ChannelLoadPoolSize - 10`) fired. -/
structure AddChannelResult where
  state : ChannelServerState
  outcome : AddChannelOutcome
  busyWarned : Bool
deriving DecidableEq

/-- Embedding of `AddChannelMessage` (server.go lines 248-292). `poolFull`
is whether the non-blocking submit to the channel-load pool fails with the
overload error; `running` is `channelLoadPool.Running()`. The function
mirrors the code path by path: an existing replica gets the message
enqueued; a key already in `channelLoadMap` is dropped; otherwise the key is
marked loading and a load task is submitted. On submit failure the code only
logs — it does not remove the key from `channelLoadMap` and no task was
queued that would. -/
def addChannelMessage (s : ChannelServerState) (poolSize : Int) (running : Nat)
    (poolFull : Bool) (m : ReactorMessage) : AddChannelResult :=
  if s.channelReplicas.contains m.handlerKey then
    { state := { s with enqueued := s.enqueued ++ [m] }
      outcome := AddChannelOutcome.enqueuedDirect
      busyWarned := false }
  else if s.channelLoadMap.contains m.handlerKey then
    { state := s
      outcome := AddChannelOutcome.droppedLoading
      busyWarned := false }
  else
    let s1 := { s with channelLoadMap := s.channelLoadMap ++ [m.handlerKey] }
    let warned := (running : Int) > poolSize - 10
    if poolFull then
      { state := s1
        outcome := AddChannelOutcome.submitFailed
        busyWarned := warned }
    else
      { state := { s1 with pendingLoads := s1.pendingLoads ++ [m.handlerKey] }
        outcome := AddChannelOutcome.loadSubmitted
        busyWarned := warned }

/-- Embedding of the body of the load task submitted by `AddChannelMessage`
(server.go lines 274-288): it calls `loadOrCreateChannel` (an external call
whose failure is only logged), then — on success and on error alike —
removes the key from `channelLoadMap`. The task runs only if the submit
succeeded, so it also leaves `pendingLoads`. -/
def loadTaskFinish (s : ChannelServerState) (key : String)
    (loadErr : Bool) : ChannelServerState :=
  let _ := loadErr
  { s with
    channelLoadMap := s.channelLoadMap.filter (fun k => !(k == key))
    pendingLoads := s.pendingLoads.filter (fun k => !(k == key)) }

/-! ### server.go `Start` (lines 144-218) and `Stop` (lines 220-233) -/

/-- The steps of `Start`, in source order. -/
inductive StartStep
  | openLogStorage
  | startKeyLockCleanLoop
  | seedNodeManager
  | addLocalSlots
  | startChannelElectionManager
  | startClusterEventServer
  | installRoutesAndStartNetServer
  | startSlotManager
  | startChannelManager
  | setIsPreparedFalse
  | launchJoinLoop
deriving DecidableEq

/-- Which fallible steps of `Start` return an error. The infallible steps
(key-lock clean loop, node seeding, slot adding, join-loop launch) have no
flag. -/
structure StartEnv where
  openErr : Bool
  electionStartErr : Bool
  eventServerStartErr : Bool
  netServerStartErr : Bool
  slotManagerStartErr : Bool
  channelManagerStartErr : Bool
deriving DecidableEq

/-- Embedding of `needJoin` (server.go lines 450-457): no join when the
trimmed seed is empty; otherwise parse the seed (errors ignored there, the
id defaulting to Go's zero value) and join exactly when the committed
cluster configuration has no node with the seed's id. -/
def needJoin (seed : String) (committedNodeIds : List Nat) : Bool :=
  if !(seedConfigured seed) then false
  else
    let sid :=
      match seedNode seed with
      | Except.ok p => p.1
      | Except.error _ => 0
    !(committedNodeIds.contains sid)

/-- Embedding of `Start` (server.go lines 144-218) as the ordered list of
steps it attempts, paired with whether it returns nil. A failing step is the
last one attempted; the join steps run only when every step succeeded and
`needJoin` holds, in which order `SetIsPrepared(false)` precedes the worker
launch. -/
def startSteps (e : StartEnv) (seed : String) (committedNodeIds : List Nat) :
    List StartStep × Bool :=
  if e.openErr then ([StartStep.openLogStorage], false)
  else
    let l1 := [StartStep.openLogStorage, StartStep.startKeyLockCleanLoop,
               StartStep.seedNodeManager, StartStep.addLocalSlots]
    if e.electionStartErr then (l1 ++ [StartStep.startChannelElectionManager], false)
    else
      let l2 := l1 ++ [StartStep.startChannelElectionManager]
      if e.eventServerStartErr then (l2 ++ [StartStep.startClusterEventServer], false)
      else
        let l3 := l2 ++ [StartStep.startClusterEventServer]
        if e.netServerStartErr then (l3 ++ [StartStep.installRoutesAndStartNetServer], false)
        else
          let l4 := l3 ++ [StartStep.installRoutesAndStartNetServer]
          if e.slotManagerStartErr then (l4 ++ [StartStep.startSlotManager], false)
          else
            let l5 := l4 ++ [StartStep.startSlotManager]
            if e.channelManagerStartErr then (l5 ++ [StartStep.startChannelManager], false)
            else
              let l6 := l5 ++ [StartStep.startChannelManager]
              if needJoin seed committedNodeIds then
                (l6 ++ [StartStep.setIsPreparedFalse, StartStep.launchJoinLoop], true)
              else (l6, true)

/-- The full `Start` step order as the specification lists it, used as the
reference order for the sequencing claim. -/
def startOrderSpec : List StartStep :=
  [StartStep.openLogStorage, StartStep.startKeyLockCleanLoop,
   StartStep.seedNodeManager, StartStep.addLocalSlots,
   StartStep.startChannelElectionManager, StartStep.startClusterEventServer,
   StartStep.installRoutesAndStartNetServer, StartStep.startSlotManager,
   StartStep.startChannelManager, StartStep.setIsPreparedFalse,
   StartStep.launchJoinLoop]

/-- Spec-side join condition, written from the specification's words: "if
`Seed` is configured and the seed node is not yet in the committed cluster",
with the seed's node id read per the spec's `<nodeId>@<host:port>` format. -/
def needJoinSpec (seed : String) (committedNodeIds : List Nat) : Bool :=
  seedConfigured seed &&
    !(committedNodeIds.contains
      (match seedNode seed with
       | Except.ok p => p.1
       | Except.error _ => 0))

/-- Which error flag of `StartEnv` governs a step: `some b` for a fallible
step whose flag is `b`, `none` for an infallible step. -/
def startErrAt (e : StartEnv) : StartStep → Option Bool
  | StartStep.openLogStorage => some e.openErr
  | StartStep.startChannelElectionManager => some e.electionStartErr
  | StartStep.startClusterEventServer => some e.eventServerStartErr
  | StartStep.installRoutesAndStartNetServer => some e.netServerStartErr
  | StartStep.startSlotManager => some e.slotManagerStartErr
  | StartStep.startChannelManager => some e.channelManagerStartErr
  | _ => none

/-- Truncate a step list at the first step whose error flag is set: the
failing step is kept as the last attempted one. -/
def cutAtError (e : StartEnv) : List StartStep → List StartStep
  | [] => []
  | st :: rest =>
    match startErrAt e st with
    | some true => [st]
    | _ => st :: cutAtError e rest

/-- Spec-side `Start` sequence, written from the specification's listing:
the canonical order, cut at the first failing step, with the two join steps
present exactly when everything succeeded and the join condition holds. -/
def startStepsSpec (e : StartEnv) (seed : String) (committedNodeIds : List Nat) :
    List StartStep × Bool :=
  let ok := !(e.openErr || e.electionStartErr || e.eventServerStartErr ||
              e.netServerStartErr || e.slotManagerStartErr || e.channelManagerStartErr)
  let base := [StartStep.openLogStorage, StartStep.startKeyLockCleanLoop,
               StartStep.seedNodeManager, StartStep.addLocalSlots,
               StartStep.startChannelElectionManager, StartStep.startClusterEventServer,
               StartStep.installRoutesAndStartNetServer, StartStep.startSlotManager,
               StartStep.startChannelManager]
  if ok then
    if needJoinSpec seed committedNodeIds then
      (base ++ [StartStep.setIsPreparedFalse, StartStep.launchJoinLoop], true)
    else (base, true)
  else (cutAtError e base, false)

/-- The managers and long-lived components `Start` brings up and `Stop`
tears down. -/
inductive Manager
  | keyLockCleaner
  | nodeManager
  | channelElectionManager
  | clusterEventServer
  | netServer
  | slotManager
  | channelManager
deriving DecidableEq

/-- Which `Start` step starts which manager. -/
def startStepManager : StartStep → Option Manager
  | StartStep.startKeyLockCleanLoop => some Manager.keyLockCleaner
  | StartStep.seedNodeManager => some Manager.nodeManager
  | StartStep.startChannelElectionManager => some Manager.channelElectionManager
  | StartStep.startClusterEventServer => some Manager.clusterEventServer
  | StartStep.installRoutesAndStartNetServer => some Manager.netServer
  | StartStep.startSlotManager => some Manager.slotManager
  | StartStep.startChannelManager => some Manager.channelManager
  | _ => none

/-- The order in which a fully successful `Start` (no errors, no join)
starts the managers. -/
def startManagersOrder : List Manager :=
  ((startSteps
      { openErr := false, electionStartErr := false, eventServerStartErr := false,
        netServerStartErr := false, slotManagerStartErr := false,
        channelManagerStartErr := false } "" []).1).filterMap startStepManager

/-- The actions of `Stop`, in source order. -/
inductive StopAction
  | setStoppedFlag
  | cancelRootContext
  | stopStopper
  | stopNodeManager
  | stopChannelElectionManager
  | stopNetServer
  | stopClusterEventServer
  | stopSlotManager
  | stopChannelManager
  | stopKeyLockCleanLoop
  | closeLogStorage
deriving DecidableEq

/-- Embedding of `Stop` (server.go lines 220-233) as its literal action
sequence. -/
def stopSeq : List StopAction :=
  [StopAction.setStoppedFlag, StopAction.cancelRootContext,
   StopAction.stopStopper, StopAction.stopNodeManager,
   StopAction.stopChannelElectionManager, StopAction.stopNetServer,
   StopAction.stopClusterEventServer, StopAction.stopSlotManager,
   StopAction.stopChannelManager, StopAction.stopKeyLockCleanLoop,
   StopAction.closeLogStorage]

/-- Which `Stop` action stops which manager. -/
def stopActionManager : StopAction → Option Manager
  | StopAction.stopKeyLockCleanLoop => some Manager.keyLockCleaner
  | StopAction.stopNodeManager => some Manager.nodeManager
  | StopAction.stopChannelElectionManager => some Manager.channelElectionManager
  | StopAction.stopClusterEventServer => some Manager.clusterEventServer
  | StopAction.stopNetServer => some Manager.netServer
  | StopAction.stopSlotManager => some Manager.slotManager
  | StopAction.stopChannelManager => some Manager.channelManager
  | _ => none

/-- The order in which `Stop` stops the managers. -/
def stopManagersOrder : List Manager :=
  stopSeq.filterMap stopActionManager

/-! ### server.go `send` (lines 327-382) and `onMessage` (lines 389-433) -/

/-- The `MsgType` constants of the intra-cluster frame protocol. Modelled
from the spec: their defining file is not among the sources under
verification; the spec fixes `Config=1, Slot=2, Channel=3`. Only their
distinctness matters to the claims. -/
def MsgTypeConfig : Nat := 1

/-- Modelled from the spec: the slot frame type (see `MsgTypeConfig`). -/
def MsgTypeSlot : Nat := 2

/-- Modelled from the spec: the channel frame type (see `MsgTypeConfig`). -/
def MsgTypeChannel : Nat := 3

/-- The `ShardType` argument of `send`. The constants live outside the
sources under verification; only the case split matters. -/
inductive ShardType
  | slot
  | config
  | channel
deriving DecidableEq

/-- Metric dimension `trace.ClusterKind*`. -/
inductive ClusterKind
  | config
  | slot
  | channel
  | unknown
deriving DecidableEq

/-- An inbound frame as `onMessage` receives it: the wire `MsgType`, the
result of `reactor.UnmarshalMessage` on its content (`none` when decoding
fails; the codec is an external collaborator), and its size. -/
structure Frame where
  msgType : Nat
  content : Option ReactorMessage
  size : Nat
deriving DecidableEq

/-- Where `onMessage` hands a frame. -/
inductive Dispatch
  | toClusterEventServer (m : ReactorMessage)
  | toSlotManager (m : ReactorMessage)
  | toChannelSubsystem (m : ReactorMessage)
  | toOnMessageFnc (f : Frame)
deriving DecidableEq

/-- Observable effects of one `onMessage` call, in order. -/
inductive RecvEffect
  | intranetIncomingAdd (size : Nat)
  | incomingMetric (kind : ClusterKind) (size : Nat)
  | decodeErrorLog
  | dispatch (d : Dispatch)
deriving DecidableEq

/-- Embedding of `onMessage` (server.go lines 389-433): return immediately
when stopped; otherwise add the intranet byte metric, then switch on
`MsgType`. The three known types decode the content (dropping the frame
with an error log on decode failure), bump the per-kind incoming metrics
and dispatch to the matching subsystem; any other type bumps the unknown
metrics and, only when `onMessageFnc` is set, forwards the raw frame to it
in a fresh goroutine. -/
def onMessage (stopped : Bool) (hasOnMessageFnc : Bool) (f : Frame) :
    List RecvEffect :=
  if stopped then []
  else
    RecvEffect.intranetIncomingAdd f.size ::
    (if f.msgType == MsgTypeConfig then
      match f.content with
      | none => [RecvEffect.decodeErrorLog]
      | some m =>
          [RecvEffect.incomingMetric ClusterKind.config f.size,
           RecvEffect.dispatch (Dispatch.toClusterEventServer m)]
    else if f.msgType == MsgTypeSlot then
      match f.content with
      | none => [RecvEffect.decodeErrorLog]
      | some m =>
          [RecvEffect.incomingMetric ClusterKind.slot f.size,
           RecvEffect.dispatch (Dispatch.toSlotManager m)]
    else if f.msgType == MsgTypeChannel then
      match f.content with
      | none => [RecvEffect.decodeErrorLog]
      | some m =>
          [RecvEffect.incomingMetric ClusterKind.channel f.size,
           RecvEffect.dispatch (Dispatch.toChannelSubsystem m)]
    else
      RecvEffect.incomingMetric ClusterKind.unknown f.size ::
      (if hasOnMessageFnc then [RecvEffect.dispatch (Dispatch.toOnMessageFnc f)]
       else []))

/-- Observable effects of one `send` call, in order. -/
inductive SendEffect
  | traceOutgoing (kind : ClusterKind) (size : Nat)
  | warnNodeNotExist (toNode : Nat)
  | errorLogMarshal
  | outgoingMetric (kind : ClusterKind)
  | nodeSend (toNode : Nat) (msgType : Nat)
  | errorLogSend
deriving DecidableEq

/-- Embedding of `send` (server.go lines 327-382): return immediately when
stopped; otherwise trace outgoing for slot/channel shard types, look up the
destination node (warn and return if absent), marshal (log and return on
error), map the shard type to a frame `MsgType`, bump the per-kind outgoing
metrics, and hand the frame to the node (logging a send error). `marshalOk`
and `nodeSendOk` stand for the outcomes of the external marshal and
transport calls. -/
def serverSend (stopped : Bool) (knownNodes : List Nat) (marshalOk : Bool)
    (nodeSendOk : Bool) (shardType : ShardType) (m : ReactorMessage) :
    List SendEffect :=
  if stopped then []
  else
    let e1 : List SendEffect :=
      match shardType with
      | ShardType.slot => [SendEffect.traceOutgoing ClusterKind.slot m.size]
      | ShardType.channel => [SendEffect.traceOutgoing ClusterKind.channel m.size]
      | ShardType.config => []
    if !(knownNodes.contains m.msgTo) then
      e1 ++ [SendEffect.warnNodeNotExist m.msgTo]
    else if !marshalOk then
      e1 ++ [SendEffect.errorLogMarshal]
    else
      let kindAndType : ClusterKind × Nat :=
        match shardType with
        | ShardType.slot => (ClusterKind.slot, MsgTypeSlot)
        | ShardType.config => (ClusterKind.config, MsgTypeConfig)
        | ShardType.channel => (ClusterKind.channel, MsgTypeChannel)
      e1 ++ [SendEffect.outgoingMetric kindAndType.1,
             SendEffect.nodeSend m.msgTo kindAndType.2] ++
        (if nodeSendOk then [] else [SendEffect.errorLogSend])

/-! ### server.go `joinLoop` (lines 459-485) -/

/-- The `ClusterJoinReq` the join loop sends: built once from the options
before the loop (server.go lines 461-465). -/
structure ClusterJoinReq where
  nodeId : Nat
  serverAddr : String
  role : String
deriving DecidableEq, BEq

/-- Build the join request from the cluster options, as `joinLoop` does. -/
def mkJoinReq (nodeId : Nat) (serverAddr : String) (role : String) :
    ClusterJoinReq :=
  { nodeId := nodeId, serverAddr := serverAddr, role := role }

/-- One iteration's worth of external input to the join loop: the 2-second
tick fired and the RPC to the seed failed, the tick fired and the RPC
returned the listed nodes, or the shutdown signal fired first. -/
inductive JoinEvent
  | tickErr
  | tickOk (nodes : List (Nat × String))
  | stopSignal
deriving DecidableEq

/-- How a finite trace leaves the join loop. -/
inductive JoinExit
  | success
  | stoppedBySignal
  | stillRunning
deriving DecidableEq

/-- The node-set and bootstrap flag the join loop updates. -/
structure JoinState where
  nodes : List (Nat × String)
  isPrepared : Bool
deriving DecidableEq

/-- Modelled from the spec: `addOrUpdateNode` is called by `joinLoop` but
defined outside the sources under verification; per the spec ("on success,
merge returned nodes") it updates the address of a known node id and adds an
unknown one. -/
def addOrUpdateNode (nodes : List (Nat × String)) (id : Nat) (addr : String) :
    List (Nat × String) :=
  if nodes.any (fun p => p.1 == id) then
    nodes.map (fun p => if p.1 == id then (id, addr) else p)
  else nodes ++ [(id, addr)]

/-- Merge every node of a `ClusterJoinResp` into the local node set, as the
loop's `for _, n := range resp.Nodes` does (the `len > 0` guard is the
identity on an empty response). -/
def mergeNodes (nodes resp : List (Nat × String)) : List (Nat × String) :=
  resp.foldl (fun acc p => addOrUpdateNode acc p.1 p.2) nodes

/-- The join loop's tick interval, `time.Second * 2`, in nanoseconds. -/
def joinLoopTickNanos : Nat := 2 * goSecond

/-- Embedding of the `joinLoop` body (server.go lines 466-484) over a finite
trace of events: a failed request is logged and the loop continues; the
first successful response merges every returned node, sets `IsPrepared` to
true and returns; the shutdown signal returns with the state untouched.
The third component lists the requests actually sent, every one being the
single `req` built before the loop. -/
def joinLoopRun (req : ClusterJoinReq) (st : JoinState) :
    List JoinEvent → JoinState × JoinExit × List ClusterJoinReq
  | [] => (st, JoinExit.stillRunning, [])
  | JoinEvent.stopSignal :: _ => (st, JoinExit.stoppedBySignal, [])
  | JoinEvent.tickErr :: rest =>
      let r := joinLoopRun req st rest
      (r.1, r.2.1, req :: r.2.2)
  | JoinEvent.tickOk ns :: _ =>
      ({ nodes := mergeNodes st.nodes ns, isPrepared := true },
       JoinExit.success, [req])

/-! ### Claim theorems -/

/-- C8: `replica.NewOptions` returns an `Options` value with `SyncLimit` 20,
`CommitLimit` 20, `CurrentTerm` 1 (never the reserved term 0),
`CheckInterval` 500 milliseconds, `ProposeTimeout` 5 seconds, and a non-nil
empty `LastSyncInfoMap`. -/
theorem c8_replica_new_options_defaults :
    replicaNewOptions.syncLimit = 20 ∧
    replicaNewOptions.commitLimit = 20 ∧
    replicaNewOptions.currentTerm = 1 ∧
    replicaNewOptions.currentTerm ≠ 0 ∧
    replicaNewOptions.checkInterval = 500 * goMillisecond ∧
    replicaNewOptions.proposeTimeout = 5 * goSecond ∧
    replicaNewOptions.lastSyncInfoMap ≠ none ∧
    replicaNewOptions.lastSyncInfoMap = some [] := by
  refine ⟨rfl, rfl, rfl, by decide, rfl, rfl, by decide, rfl⟩

/-- C9: for every `Options` whose `InitNodes` map is nil, the `New`
constructor fragment panics — the `len(initNodes) == 0` branch is taken and
the entry assignments hit the nil map (or, for a malformed seed, the seed
parse panics first) — while a caller-supplied non-nil empty map succeeds
and is mutated: the local node's address (with any `tcp://` prefixes
stripped) is always written, and a configured seed's node is written before
it. -/
theorem c9_new_nil_initnodes_panics :
    (∀ (seed : String) (nodeId : Nat) (addr : String),
      (newInitNodes none seed nodeId addr).isOk = false) ∧
    (∀ (nodeId : Nat) (addr : String),
      newInitNodes (some []) "" nodeId addr =
        Except.ok (some [(nodeId, goStripAll addr "tcp://")])) ∧
    newInitNodes (some []) "1@h:1" 2 "tcp://a:2" =
      Except.ok (some [(1, "h:1"), (2, "a:2")]) := by
  refine ⟨?_, ?_, ?_⟩
  · intro seed nodeId addr
    cases h : seedConfigured seed <;>
      simp only [newInitNodes, goMapLen, h, beq_self_eq_true, if_true,
        Bool.false_eq_true, if_false] <;>
      first
      | rfl
      | (cases hsn : seedNode seed with
         | error e => simp only [hsn, goMapAssign]; rfl
         | ok p => simp only [hsn, goMapAssign]; rfl)
  · intro nodeId addr
    rfl
  · rfl

/-- C1: claim refuted at a concrete pool size — the channel-load pool's
panic handler calls the logger's `Panic` (the same call as the
channel-election pool's handler), which re-raises the panic, so a
channel-load panic does terminate the process rather than being
non-fatal. -/
theorem c1_counterexample :
    (channelLoadPoolConfig 100).panicHandler.terminatesProcess = true := by
  rfl

/-- C1 (amended): for every pool size, a panic inside a task of either the
channel-load pool or the channel-election pool is caught by the installed
panic handler and logged with a stack trace, but both handlers then invoke
the logger's `Panic`, so a panic in either pool is fatal — channel-load
panics terminate the process just like channel-election panics. -/
theorem c1_amended_both_pool_panics_fatal (n : Int) :
    (channelElectionPoolConfig n).panicHandler =
      { logsStack := true, terminatesProcess := true } ∧
    (channelLoadPoolConfig n).panicHandler =
      { logsStack := true, terminatesProcess := true } := by
  exact ⟨rfl, rfl⟩

/-- A concrete state for refuting C2: no replica and no load in flight for
any key. -/
def c2EmptyState : ChannelServerState :=
  { channelReplicas := [], channelLoadMap := [], enqueued := [], pendingLoads := [] }

/-- A concrete channel message for refuting C2. -/
def c2Msg : ReactorMessage :=
  { handlerKey := "42@1", msgFrom := 7, msgTo := 1, msgType := 5, size := 10 }

/-- Filtering out a key leaves a list that does not contain it. -/
theorem contains_filter_ne_self (l : List String) (key : String) :
    (l.filter (fun k => !(k == key))).contains key = false := by
  simp [List.mem_filter]

/-- C2: claim refuted at a concrete input — on a full pool the non-blocking
submit fails, the call ends with the overload error merely logged, and the
handler key is left in `channelLoadMap` with no load task pending that would
ever clear it, so the key stays marked loading. -/
theorem c2_counterexample :
    (addChannelMessage c2EmptyState 100 0 true c2Msg).outcome =
      AddChannelOutcome.submitFailed ∧
    (addChannelMessage c2EmptyState 100 0 true c2Msg).state.channelLoadMap =
      ["42@1"] ∧
    (addChannelMessage c2EmptyState 100 0 true c2Msg).state.pendingLoads = [] := by
  refine ⟨rfl, rfl, rfl⟩

/-- C2 (amended): for a message whose key has no in-memory replica and is
not marked loading, `AddChannelMessage` marks the key loading and submits
the load task with a non-blocking submit; when the pool is full the submit
fails with the overload error (the spec's `ErrPoolSaturated`), which is
only logged; a completed load task — on success and on load error alike —
clears the loading mark, but on submit failure no task was queued and the
mark is not cleared, so the key stays marked loading. -/
theorem c2_amended_loading_mark_lifecycle (s : ChannelServerState)
    (poolSize : Int) (running : Nat) (poolFull : Bool) (m : ReactorMessage)
    (hrep : s.channelReplicas.contains m.handlerKey = false)
    (hload : s.channelLoadMap.contains m.handlerKey = false) :
    (addChannelMessage s poolSize running poolFull m).outcome =
      (if poolFull then AddChannelOutcome.submitFailed
       else AddChannelOutcome.loadSubmitted) ∧
    (addChannelMessage s poolSize running poolFull m).state.channelLoadMap =
      s.channelLoadMap ++ [m.handlerKey] ∧
    (addChannelMessage s poolSize running poolFull m).state.pendingLoads =
      (if poolFull then s.pendingLoads else s.pendingLoads ++ [m.handlerKey]) ∧
    (∀ (s2 : ChannelServerState) (loadErr : Bool),
      (loadTaskFinish s2 m.handlerKey loadErr).channelLoadMap.contains
        m.handlerKey = false) ∧
    (channelLoadPoolConfig poolSize).nonblocking = true := by
  have hrep2 : m.handlerKey ∉ s.channelReplicas := by simpa using hrep
  have hload2 : m.handlerKey ∉ s.channelLoadMap := by simpa using hload
  refine ⟨?_, ?_, ?_, ?_, rfl⟩
  · cases poolFull <;> simp [addChannelMessage, hrep2, hload2]
  · cases poolFull <;> simp [addChannelMessage, hrep2, hload2]
  · cases poolFull <;> simp [addChannelMessage, hrep2, hload2]
  · intro s2 loadErr
    exact contains_filter_ne_self s2.channelLoadMap m.handlerKey

/-- C2 (amended) witness: the amended theorem applied at a concrete state
and message with an empty pool. -/
theorem c2_amended_witness :
    c2EmptyState.channelReplicas.contains c2Msg.handlerKey = false ∧
    c2EmptyState.channelLoadMap.contains c2Msg.handlerKey = false ∧
    (addChannelMessage c2EmptyState 100 0 false c2Msg).outcome =
      (if false then AddChannelOutcome.submitFailed
       else AddChannelOutcome.loadSubmitted) := by
  have h := c2_amended_loading_mark_lifecycle c2EmptyState 100 0 false c2Msg
    (by decide) (by decide)
  exact ⟨by decide, by decide, h.1⟩

/-- C7: for every message passed to `AddChannelMessage`, if an in-memory
channel replica exists for the handler key the message is enqueued directly
to the channel manager and nothing else changes; otherwise, if a load for
that key is already marked in flight, the message is dropped silently with
the state untouched — no enqueue and no new load task. -/
theorem c7_add_channel_message_fast_paths (s : ChannelServerState)
    (poolSize : Int) (running : Nat) (poolFull : Bool) (m : ReactorMessage) :
    (s.channelReplicas.contains m.handlerKey = true →
      addChannelMessage s poolSize running poolFull m =
        { state := { s with enqueued := s.enqueued ++ [m] }
          outcome := AddChannelOutcome.enqueuedDirect
          busyWarned := false }) ∧
    (s.channelReplicas.contains m.handlerKey = false →
      s.channelLoadMap.contains m.handlerKey = true →
      addChannelMessage s poolSize running poolFull m =
        { state := s
          outcome := AddChannelOutcome.droppedLoading
          busyWarned := false }) := by
  constructor
  · intro h
    have h2 : m.handlerKey ∈ s.channelReplicas := by simpa using h
    simp [addChannelMessage, h2]
  · intro h1 h2
    have h3 : m.handlerKey ∉ s.channelReplicas := by simpa using h1
    have h4 : m.handlerKey ∈ s.channelLoadMap := by simpa using h2
    simp [addChannelMessage, h3, h4]

/-- C7 witness: both hypotheses discharged at concrete states. -/
theorem c7_witness :
    (["42@1"] : List String).contains "42@1" = true ∧
    (addChannelMessage
        { channelReplicas := ["42@1"], channelLoadMap := [], enqueued := [],
          pendingLoads := [] } 100 0 false c2Msg).outcome =
      AddChannelOutcome.enqueuedDirect ∧
    (addChannelMessage
        { channelReplicas := [], channelLoadMap := ["42@1"], enqueued := [],
          pendingLoads := [] } 100 0 false c2Msg).outcome =
      AddChannelOutcome.droppedLoading := by
  have h1 := (c7_add_channel_message_fast_paths
    { channelReplicas := ["42@1"], channelLoadMap := [], enqueued := [],
      pendingLoads := [] } 100 0 false c2Msg).1 (by decide)
  have h2 := (c7_add_channel_message_fast_paths
    { channelReplicas := [], channelLoadMap := ["42@1"], enqueued := [],
      pendingLoads := [] } 100 0 false c2Msg).2 (by decide) (by decide)
  exact ⟨by decide, by rw [h1], by rw [h2]⟩

/-- C3: claim refuted — `Stop` does not stop the managers in the reverse of
the order `Start` started them: `Stop`'s manager order begins with the node
manager while the reverse of `Start`'s would begin with the channel
manager. -/
theorem c3_counterexample :
    ¬ (stopManagersOrder = startManagersOrder.reverse) := by
  decide

/-- C3 (amended): `Stop` performs, in this order: set the stopped flag,
cancel the root context, stop the stopper's workers, then stop the node
manager, the channel-election manager, the net server, the cluster-event
server, the slot manager and the channel manager, stop the key-lock clean
loop, and finally close the `LogStorage` — the managers go down in
essentially the same order `Start` brought them up (net server and
cluster-event server swapped), not in reverse. -/
theorem c3_amended_stop_sequence :
    stopSeq =
      [StopAction.setStoppedFlag, StopAction.cancelRootContext,
       StopAction.stopStopper, StopAction.stopNodeManager,
       StopAction.stopChannelElectionManager, StopAction.stopNetServer,
       StopAction.stopClusterEventServer, StopAction.stopSlotManager,
       StopAction.stopChannelManager, StopAction.stopKeyLockCleanLoop,
       StopAction.closeLogStorage] ∧
    startManagersOrder =
      [Manager.keyLockCleaner, Manager.nodeManager,
       Manager.channelElectionManager, Manager.clusterEventServer,
       Manager.netServer, Manager.slotManager, Manager.channelManager] ∧
    stopManagersOrder =
      [Manager.nodeManager, Manager.channelElectionManager, Manager.netServer,
       Manager.clusterEventServer, Manager.slotManager, Manager.channelManager,
       Manager.keyLockCleaner] ∧
    stopSeq.getLast? = some StopAction.closeLogStorage := by
  refine ⟨rfl, by decide, rfl, rfl⟩

/-- The code's `needJoin` agrees with the specification's join condition. -/
theorem needJoin_eq_spec (seed : String) (c : List Nat) :
    needJoin seed c = needJoinSpec seed c := by
  unfold needJoin needJoinSpec
  cases h : seedConfigured seed <;> simp [h]

/-- C4: `Start` attempts its steps in exactly the specified order — open
`LogStorage`, start the key-lock clean loop, seed the node manager, add the
locally-assigned slots, start the channel-election manager, the
cluster-event server, the net server (with routes installed), the slot
manager and the channel manager — a failing step is the last one attempted
and aborts the sequence, and the join steps run only when everything
succeeded, `Seed` is configured and the seed node is absent from the
committed cluster. -/
theorem c4_start_sequence (e : StartEnv) (seed : String)
    (committedNodeIds : List Nat) :
    startSteps e seed committedNodeIds = startStepsSpec e seed committedNodeIds := by
  rcases e with ⟨o, a, b, c, d, f⟩
  cases o <;> cases a <;> cases b <;> cases c <;> cases d <;> cases f <;>
    simp [startSteps, startStepsSpec, cutAtError, startErrAt,
      needJoin_eq_spec seed committedNodeIds]

/-- C5: with the server not stopped, `onMessage` dispatches every inbound
frame by `MsgType` — Config frames to the cluster-event server, Slot frames
to the slot manager, Channel frames to the channel subsystem, each after a
successful decode and with the per-kind incoming metrics bumped; a frame of
a known type whose content fails to decode is dropped with only an error
log; and any other type is forwarded to the user-supplied `onMessageFnc` in
a fresh task only when that callback is set. -/
theorem c5_onmessage_dispatch (hasFnc : Bool) (m : ReactorMessage) (sz : Nat)
    (other : Nat) (h1 : other ≠ MsgTypeConfig) (h2 : other ≠ MsgTypeSlot)
    (h3 : other ≠ MsgTypeChannel) :
    onMessage false hasFnc { msgType := MsgTypeConfig, content := some m, size := sz } =
      [RecvEffect.intranetIncomingAdd sz,
       RecvEffect.incomingMetric ClusterKind.config sz,
       RecvEffect.dispatch (Dispatch.toClusterEventServer m)] ∧
    onMessage false hasFnc { msgType := MsgTypeSlot, content := some m, size := sz } =
      [RecvEffect.intranetIncomingAdd sz,
       RecvEffect.incomingMetric ClusterKind.slot sz,
       RecvEffect.dispatch (Dispatch.toSlotManager m)] ∧
    onMessage false hasFnc { msgType := MsgTypeChannel, content := some m, size := sz } =
      [RecvEffect.intranetIncomingAdd sz,
       RecvEffect.incomingMetric ClusterKind.channel sz,
       RecvEffect.dispatch (Dispatch.toChannelSubsystem m)] ∧
    onMessage false hasFnc { msgType := MsgTypeConfig, content := none, size := sz } =
      [RecvEffect.intranetIncomingAdd sz, RecvEffect.decodeErrorLog] ∧
    onMessage false hasFnc { msgType := MsgTypeSlot, content := none, size := sz } =
      [RecvEffect.intranetIncomingAdd sz, RecvEffect.decodeErrorLog] ∧
    onMessage false hasFnc { msgType := MsgTypeChannel, content := none, size := sz } =
      [RecvEffect.intranetIncomingAdd sz, RecvEffect.decodeErrorLog] ∧
    onMessage false hasFnc { msgType := other, content := some m, size := sz } =
      [RecvEffect.intranetIncomingAdd sz,
       RecvEffect.incomingMetric ClusterKind.unknown sz] ++
        (if hasFnc then
          [RecvEffect.dispatch
            (Dispatch.toOnMessageFnc { msgType := other, content := some m, size := sz })]
         else []) := by
  refine ⟨rfl, rfl, rfl, rfl, rfl, rfl, ?_⟩
  simp [onMessage, h1, h2, h3]

/-- C5 witness: the dispatch equations applied at a concrete frame, with
the unknown message type 9 discharging the distinctness hypotheses. -/
theorem c5_onmessage_dispatch_witness :
    (9 : Nat) ≠ MsgTypeConfig ∧ (9 : Nat) ≠ MsgTypeSlot ∧
    (9 : Nat) ≠ MsgTypeChannel ∧
    onMessage false true { msgType := MsgTypeConfig, content := some c2Msg, size := 10 } =
      [RecvEffect.intranetIncomingAdd 10,
       RecvEffect.incomingMetric ClusterKind.config 10,
       RecvEffect.dispatch (Dispatch.toClusterEventServer c2Msg)] := by
  have h := c5_onmessage_dispatch true c2Msg 10 9 (by decide) (by decide) (by decide)
  exact ⟨by decide, by decide, by decide, h.1⟩

/-- C10: once the stopped flag is set — and setting it is the first action
of `Stop` — a `send` call returns before contacting any node or
incrementing any outgoing metric, and an inbound frame given to `onMessage`
returns before any metric, decode or dispatch: both produce no observable
effect at all. -/
theorem c10_stopped_server_goes_silent (knownNodes : List Nat)
    (marshalOk nodeSendOk : Bool) (shardType : ShardType) (m : ReactorMessage)
    (hasFnc : Bool) (f : Frame) :
    serverSend true knownNodes marshalOk nodeSendOk shardType m = [] ∧
    onMessage true hasFnc f = [] ∧
    stopSeq.head? = some StopAction.setStoppedFlag := by
  exact ⟨rfl, rfl, rfl⟩

/-- The all-success `Start` error environment. -/
def startEnvAllOk : StartEnv :=
  { openErr := false, electionStartErr := false, eventServerStartErr := false,
    netServerStartErr := false, slotManagerStartErr := false,
    channelManagerStartErr := false }

/-- Every request the join loop sends over any finite trace is the single
request built before the loop. -/
theorem joinLoopRun_requests_all (req : ClusterJoinReq) (st : JoinState)
    (evs : List JoinEvent) :
    ((joinLoopRun req st evs).2.2).all (fun r => decide (r = req)) = true := by
  induction evs with
  | nil => rfl
  | cons e rest ih =>
    cases e with
    | stopSignal => rfl
    | tickErr => simp [joinLoopRun, ih]
    | tickOk ns => simp [joinLoopRun]

/-- C6: the join loop ticks every 2 seconds; a request error is retried at
the next tick with the state unchanged; the first successful response
merges every returned node into the local node set, sets `IsPrepared` to
true and exits; the shutdown signal exits with the state untouched; every
request sent is the one `ClusterJoinReq{nodeId, serverAddr, role}` built
from the options before the loop; and when `Start` decides to join it runs
`SetIsPrepared(false)` and only then launches the join-loop worker, as its
last two steps. -/
theorem c6_join_loop (nodeId : Nat) (serverAddr role : String)
    (st : JoinState) (rest : List JoinEvent) (ns : List (Nat × String))
    (evs : List JoinEvent) :
    joinLoopTickNanos = 2 * goSecond ∧
    mkJoinReq nodeId serverAddr role =
      { nodeId := nodeId, serverAddr := serverAddr, role := role } ∧
    joinLoopRun (mkJoinReq nodeId serverAddr role) st (JoinEvent.tickErr :: rest) =
      ((joinLoopRun (mkJoinReq nodeId serverAddr role) st rest).1,
       (joinLoopRun (mkJoinReq nodeId serverAddr role) st rest).2.1,
       mkJoinReq nodeId serverAddr role ::
         (joinLoopRun (mkJoinReq nodeId serverAddr role) st rest).2.2) ∧
    joinLoopRun (mkJoinReq nodeId serverAddr role) st (JoinEvent.tickOk ns :: rest) =
      ({ nodes := mergeNodes st.nodes ns, isPrepared := true },
       JoinExit.success, [mkJoinReq nodeId serverAddr role]) ∧
    joinLoopRun (mkJoinReq nodeId serverAddr role) st (JoinEvent.stopSignal :: rest) =
      (st, JoinExit.stoppedBySignal, []) ∧
    ((joinLoopRun (mkJoinReq nodeId serverAddr role) st evs).2.2).all
      (fun r => decide (r = mkJoinReq nodeId serverAddr role)) = true ∧
    (startSteps startEnvAllOk "1@h:1" []).1 =
      [StartStep.openLogStorage, StartStep.startKeyLockCleanLoop,
       StartStep.seedNodeManager, StartStep.addLocalSlots,
       StartStep.startChannelElectionManager, StartStep.startClusterEventServer,
       StartStep.installRoutesAndStartNetServer, StartStep.startSlotManager,
       StartStep.startChannelManager, StartStep.setIsPreparedFalse,
       StartStep.launchJoinLoop] := by
  refine ⟨rfl, rfl, rfl, rfl, rfl, joinLoopRun_requests_all _ st evs, by decide⟩
